import Mathlib

/-!
Shallow embedding of the VisionAcuity client session control loop
(`src/src/App.jsx`): the React component's state hooks become a `State`
structure, the WebSocket / timer / button handlers become a `step`
function over explicit environment events, and the `onmessage` handler
becomes `processMessage`.  JavaScript truthiness tests on optional JSON
fields are modelled by explicit `truthy*` predicates.

The `useEffect` that creates the WebSocket has dependency `[isMeasuring]`
(App.jsx line 100): whenever `isMeasuring` changes, React runs the
cleanup (`ws.current.close()`) and re-runs the effect, constructing a
fresh `WebSocket`.  The model reflects this: any transition that toggles
`isMeasuring` closes the current socket (the new one is still connecting,
so `wsOpen := false`) and increments `connectionsOpened`.
-/

namespace VisionAcuity

/-- Substring machinery for `String.prototype.includes`. -/
def charsStart : List Char → List Char → Bool
  | [], _ => true
  | _ :: _, [] => false
  | a :: as, b :: bs => a == b && charsStart as bs

/-- `charsHas n h` holds iff `n` occurs contiguously inside `h`. -/
def charsHas (n : List Char) : List Char → Bool
  | [] => n.isEmpty
  | c :: t => charsStart n (c :: t) || charsHas n t

/-- Embedding of JavaScript `hay.includes(needle)` for strings. -/
def containsSub (needle hay : String) : Bool :=
  charsHas needle.toList hay.toList

/-- Embedding of JavaScript `toLowerCase()` (character-wise lowering). -/
def lowerStr (t : String) : String :=
  String.mk (t.data.map Char.toLower)

/-- One detection in the `faces` array; the wire object may lack the
`distance` key, hence `Option`. -/
structure Face where
  distance : Option ℚ
deriving DecidableEq, Repr

/-- Inbound service message: any subset of the wire fields may be
present (App.jsx lines 59-90 test each with JS truthiness). -/
structure InMsg where
  success : Option Bool := none
  processed_image : Option String := none
  focal_length : Option ℚ := none
  faces : Option (List Face) := none
  message : Option String := none
  error : Option String := none
deriving DecidableEq, Repr

/-- Outbound wire messages (App.jsx lines 44, 104, 116-119, 126, 137). -/
inductive OutMsg where
  | startCalibration
  | capture (image : String)
  | startDistance
  | stopAll
  | frame (image : String)
deriving DecidableEq, Repr

/-- `connectionStatus` hook values. -/
inductive ConnStatus where
  | connected
  | disconnected
  | errored
deriving DecidableEq, Repr

/-- The component state: one field per `useState` hook plus the refs and
socket bookkeeping (`timerActive` for `detectionInterval.current`,
`wsOpen` for `ws.current.readyState === WebSocket.OPEN`, and
`connectionsOpened` counting `new WebSocket(...)` constructions). -/
structure State where
  showCamera : Bool
  currentDistance : String
  focalLength : ℚ
  processedImage : Option String
  connectionStatus : ConnStatus
  isCalibrating : Bool
  isCalibrated : Bool
  statusMessage : String
  isMeasuring : Bool
  frameCount : Nat
  timerActive : Bool
  wsOpen : Bool
  connectionsOpened : Nat
deriving DecidableEq, Repr

/-- Initial state on mount: hooks at their `useState` initial values;
the mount effect has constructed the first (still connecting) socket. -/
def init : State where
  showCamera := false
  currentDistance := "0m"
  focalLength := 0
  processedImage := none
  connectionStatus := .disconnected
  isCalibrating := false
  isCalibrated := false
  statusMessage := ""
  isMeasuring := false
  frameCount := 0
  timerActive := false
  wsOpen := false
  connectionsOpened := 1

/-- JS truthiness of an optional string (`undefined` and `""` are falsy). -/
def truthyStr : Option String → Bool
  | some t => t != ""
  | none => false

/-- JS truthiness of an optional number (`undefined` and `0` are falsy). -/
def truthyNum : Option ℚ → Bool
  | some q => q != 0
  | none => false

/-- JS truthiness of the optional `success` flag. -/
def truthySuccess : Option Bool → Bool
  | some b => b
  | none => false

/-- `data.message?.toLowerCase().includes("calibration complete")`. -/
def hasMarker : Option String → Bool
  | some t => containsSub "calibration complete" (lowerStr t)
  | none => false

/-- `data.faces && data.faces.length > 0`. -/
def facesNonempty : Option (List Face) → Bool
  | some fs => !fs.isEmpty
  | none => false

/-- `data.faces[0].distance` (the guard guarantees nonemptiness). -/
def headDist : Option (List Face) → Option ℚ
  | some (f :: _) => f.distance
  | _ => none

/-- `data.faces[0].distance > 0` (false when the key is absent). -/
def distPos : Option ℚ → Bool
  | some q => decide (0 < q)
  | none => false

/-- Rendering of a distance value, `\x7b...\x7dm` in the source. -/
def renderDist (q : ℚ) : String := toString q ++ "m"

/-- `distance > 0 ? \x7b...\x7dm : 'Calculating...'`. -/
def distDisplay (d : Option ℚ) : String :=
  if distPos d then renderDist (d.getD 0) else "Calculating..."

/-- Status text set by the calibration-complete branch (App.jsx line 74). -/
def calibDoneStatus : String :=
  "✅ Calibration complete! You can now measure distance."

/-- `if (data.processed_image) setProcessedImage(data.processed_image)`. -/
def applyImage (s : State) (m : InMsg) : State :=
  if truthyStr m.processed_image then
    { s with processedImage := m.processed_image }
  else s

/-- `if (data.focal_length) setFocalLength(data.focal_length)`. -/
def applyFocal (s : State) (m : InMsg) : State :=
  if truthyNum m.focal_length then
    { s with focalLength := m.focal_length.getD 0 }
  else s

/-- The calibration-complete branch (App.jsx lines 71-75). -/
def applyCalib (s : State) (m : InMsg) : State :=
  if hasMarker m.message then
    { s with isCalibrating := false, isCalibrated := true,
             statusMessage := calibDoneStatus }
  else s

/-- The faces branch (App.jsx lines 77-79); `isMeasuring` is the hook
value captured by the effect closure, which is never modified inside the
handler, so the running state's field is used. -/
def applyFaces (s : State) (m : InMsg) : State :=
  if facesNonempty m.faces && s.isMeasuring then
    { s with currentDistance := distDisplay (headDist m.faces) }
  else s

/-- The whole `ws.current.onmessage` handler (App.jsx lines 59-90). -/
def processMessage (s : State) (m : InMsg) : State :=
  let afterSuccess :=
    if truthySuccess m.success then
      applyFaces (applyCalib (applyFocal (applyImage s m) m) m) m
    else s
  let afterMsg :=
    if truthyStr m.message then
      { afterSuccess with statusMessage := m.message.getD "" }
    else afterSuccess
  if truthyStr m.error then
    { afterMsg with statusMessage := "Error: " ++ m.error.getD "" }
  else afterMsg

/-- Environment events: socket callbacks, inbound messages, the four
user buttons (each only rendered in the phases shown at App.jsx lines
216-238, so user events carry those guards), and Frame Pump timer ticks.
`userCapture` and `tick` carry the snapshot `webcamRef` would yield
(`none` for an absent webcam or a `null` screenshot). -/
inductive Event where
  | wsOpen
  | wsClose
  | wsError
  | wsMessage (m : InMsg)
  | userCalibrate
  | userCapture (snap : Option String)
  | userStartMeasuring
  | userStopMeasuring
  | tick (snap : Option String)
deriving DecidableEq, Repr

/-- One reaction of the component to an event, returning the new state
and the list of messages sent on the wire during that reaction. -/
def step (s : State) (e : Event) : State × List OutMsg :=
  match e with
  | .wsOpen =>
      ({ s with wsOpen := true, connectionStatus := .connected }, [])
  | .wsClose =>
      ({ s with wsOpen := false, connectionStatus := .disconnected }, [])
  | .wsError =>
      ({ s with connectionStatus := .errored }, [])
  | .wsMessage m =>
      (processMessage s m, [])
  | .userCalibrate =>
      if !s.isCalibrated && !s.isCalibrating && s.wsOpen then
        ({ s with isCalibrating := true, isCalibrated := false,
                  showCamera := true,
                  statusMessage :=
                    "🧍 Stand at one-arm distance and click \x27Capture\x27" },
         [.startCalibration])
      else (s, [])
  | .userCapture snap =>
      if s.isCalibrating && truthyStr snap && s.wsOpen then
        (s, [.capture (snap.getD "")])
      else (s, [])
  | .userStartMeasuring =>
      if s.isCalibrated && !s.isMeasuring && s.wsOpen then
        ({ s with isMeasuring := true, timerActive := true,
                  statusMessage := "📏 Measuring distance...",
                  wsOpen := false,
                  connectionsOpened := s.connectionsOpened + 1 },
         [.startDistance])
      else (s, [])
  | .userStopMeasuring =>
      if s.isMeasuring then
        ({ s with timerActive := false, isMeasuring := false,
                  currentDistance := "0m",
                  statusMessage := "Measurement stopped",
                  processedImage := none,
                  wsOpen := false,
                  connectionsOpened := s.connectionsOpened + 1 },
         if s.wsOpen then [.stopAll] else [])
      else (s, [])
  | .tick snap =>
      if s.timerActive && s.wsOpen && truthyStr snap then
        ({ s with frameCount := s.frameCount + 1 }, [.frame (snap.getD "")])
      else (s, [])

/-- Run a sequence of events from a state (sends discarded). -/
def run (s : State) : List Event → State
  | [] => s
  | e :: es => run (step s e).1 es

/-- A state the mounted session can actually be in. -/
def Reachable (s : State) : Prop := ∃ es : List Event, run init es = s

/-- Workflow phase derived from the three boolean hooks. -/
inductive Phase where
  | Idle
  | Calibrating
  | Calibrated
  | Measuring
deriving DecidableEq, Repr

/-- Phase of a state, per the button-rendering logic. -/
def phase (s : State) : Phase :=
  if s.isMeasuring then .Measuring
  else if s.isCalibrating then .Calibrating
  else if s.isCalibrated then .Calibrated
  else .Idle

example : phase init = Phase.Idle := rfl

/-! Concrete traces used by witnesses and counterexamples. -/

/-- The service's calibration confirmation from the spec scenario. -/
def calibMsg : InMsg :=
  { success := some true
    message := some "Calibration complete"
    focal_length := some (mkRat 4502 10) }

/-- Mount, socket opens, user presses Calibrate. -/
def traceToCalibrating : List Event := [.wsOpen, .userCalibrate]

/-- ... the service confirms calibration and the user starts measuring. -/
def traceToMeasuring : List Event :=
  traceToCalibrating ++ [.wsMessage calibMsg, .userStartMeasuring]

def sCalibrating : State := run init traceToCalibrating

def sMeasuring : State := run init traceToMeasuring

def sMeasuringOpen : State := run init (traceToMeasuring ++ [.wsOpen])

def sStopped : State :=
  run init (traceToMeasuring ++ [.wsOpen, .userStopMeasuring])

example : phase sCalibrating = Phase.Calibrating := by decide
example : sCalibrating.wsOpen = true := by decide
example : phase sMeasuring = Phase.Measuring := by decide
example : sMeasuring.wsOpen = false := by decide
example : sMeasuring.connectionsOpened = 2 := by decide
example : phase sMeasuringOpen = Phase.Measuring := by decide
example : sMeasuringOpen.wsOpen = true := by decide
example : phase sStopped = Phase.Calibrated := by decide
example : sStopped.processedImage = none := by decide
example : sStopped.currentDistance = "0m" := by decide
example : sStopped.focalLength = mkRat 4502 10 := by decide

/-! Normal form of the message handler and projection lemmas. -/

/-- `processMessage` written as a single simultaneous record update. -/
theorem processMessage_eq (s : State) (m : InMsg) :
    processMessage s m =
      { s with
        processedImage :=
          if truthySuccess m.success && truthyStr m.processed_image then
            m.processed_image
          else s.processedImage
        focalLength :=
          if truthySuccess m.success && truthyNum m.focal_length then
            m.focal_length.getD 0
          else s.focalLength
        isCalibrating :=
          if truthySuccess m.success && hasMarker m.message then false
          else s.isCalibrating
        isCalibrated :=
          if truthySuccess m.success && hasMarker m.message then true
          else s.isCalibrated
        currentDistance :=
          if truthySuccess m.success && (facesNonempty m.faces && s.isMeasuring) then
            distDisplay (headDist m.faces)
          else s.currentDistance
        statusMessage :=
          if truthyStr m.error then "Error: " ++ m.error.getD ""
          else if truthyStr m.message then m.message.getD ""
          else if truthySuccess m.success && hasMarker m.message then
            calibDoneStatus
          else s.statusMessage } := by
  obtain ⟨sc, cd, fl, pi, cs, ic, icd, sm, im, fc, ta, wo, co⟩ := s
  cases hsu : truthySuccess m.success <;>
    cases himg : truthyStr m.processed_image <;>
    cases hfl : truthyNum m.focal_length <;>
    cases hmk : hasMarker m.message <;>
    cases hfs : facesNonempty m.faces <;>
    cases im <;>
    cases hmsg : truthyStr m.message <;>
    cases herr : truthyStr m.error <;>
    simp [processMessage, applyFaces, applyCalib, applyFocal, applyImage,
      hsu, himg, hfl, hmk, hfs, hmsg, herr]

theorem processMessage_isMeasuring (s : State) (m : InMsg) :
    (processMessage s m).isMeasuring = s.isMeasuring := by
  rw [processMessage_eq]

theorem processMessage_timerActive (s : State) (m : InMsg) :
    (processMessage s m).timerActive = s.timerActive := by
  rw [processMessage_eq]

theorem processMessage_isCalibrating (s : State) (m : InMsg) :
    (processMessage s m).isCalibrating =
      if truthySuccess m.success && hasMarker m.message then false
      else s.isCalibrating := by
  rw [processMessage_eq]

theorem processMessage_isCalibrated (s : State) (m : InMsg) :
    (processMessage s m).isCalibrated =
      if truthySuccess m.success && hasMarker m.message then true
      else s.isCalibrated := by
  rw [processMessage_eq]

theorem processMessage_focalLength (s : State) (m : InMsg) :
    (processMessage s m).focalLength =
      if truthySuccess m.success && truthyNum m.focal_length then
        m.focal_length.getD 0
      else s.focalLength := by
  rw [processMessage_eq]

theorem processMessage_processedImage (s : State) (m : InMsg) :
    (processMessage s m).processedImage =
      if truthySuccess m.success && truthyStr m.processed_image then
        m.processed_image
      else s.processedImage := by
  rw [processMessage_eq]

theorem processMessage_currentDistance (s : State) (m : InMsg) :
    (processMessage s m).currentDistance =
      if truthySuccess m.success && (facesNonempty m.faces && s.isMeasuring) then
        distDisplay (headDist m.faces)
      else s.currentDistance := by
  rw [processMessage_eq]

theorem processMessage_statusMessage (s : State) (m : InMsg) :
    (processMessage s m).statusMessage =
      if truthyStr m.error then "Error: " ++ m.error.getD ""
      else if truthyStr m.message then m.message.getD ""
      else if truthySuccess m.success && hasMarker m.message then
        calibDoneStatus
      else s.statusMessage := by
  rw [processMessage_eq]

/-! Invariants of reachable states. -/

/-- Structural invariant maintained by every transition: measuring
implies calibrated and not calibrating, the Frame Pump timer exists
exactly while measuring, and the calibrating/calibrated flags are never
both set. -/
def WF (s : State) : Prop :=
  (s.isMeasuring = true → s.isCalibrated = true ∧ s.isCalibrating = false) ∧
  s.timerActive = s.isMeasuring ∧
  (s.isCalibrating = true → s.isCalibrated = false)

theorem wf_init : WF init := by
  refine ⟨?_, rfl, ?_⟩ <;> intro h <;> exact absurd h (by decide)

theorem wf_step (s : State) (e : Event) (h : WF s) : WF (step s e).1 := by
  obtain ⟨h1, h2, h3⟩ := h
  cases e with
  | wsOpen => exact ⟨h1, h2, h3⟩
  | wsClose => exact ⟨h1, h2, h3⟩
  | wsError => exact ⟨h1, h2, h3⟩
  | wsMessage m =>
    simp only [step]
    refine ⟨?_, ?_, ?_⟩
    · intro hm
      rw [processMessage_isMeasuring] at hm
      rw [processMessage_isCalibrated, processMessage_isCalibrating]
      cases hg : truthySuccess m.success && hasMarker m.message <;>
        simp [hg, h1 hm]
    · rw [processMessage_timerActive, processMessage_isMeasuring]; exact h2
    · rw [processMessage_isCalibrated, processMessage_isCalibrating]
      cases hg : truthySuccess m.success && hasMarker m.message with
      | false => simpa [hg] using h3
      | true => simp [hg]
  | userCalibrate =>
    simp only [step]
    split
    · next hguard =>
      simp only [Bool.and_eq_true, Bool.not_eq_true'] at hguard
      refine ⟨?_, ?_, ?_⟩
      · intro hm
        exact absurd (h1 hm).1 (by simp [hguard.1.1])
      · exact h2
      · intro _; rfl
    · exact ⟨h1, h2, h3⟩
  | userCapture snap =>
    simp only [step]
    split
    · exact ⟨h1, h2, h3⟩
    · exact ⟨h1, h2, h3⟩
  | userStartMeasuring =>
    simp only [step]
    split
    · next hguard =>
      simp only [Bool.and_eq_true, Bool.not_eq_true'] at hguard
      refine ⟨?_, rfl, ?_⟩
      · intro _
        refine ⟨hguard.1.1, ?_⟩
        show s.isCalibrating = false
        cases hcb : s.isCalibrating with
        | false => rfl
        | true => exact absurd (h3 hcb) (by simp [hguard.1.1])
      · intro hc
        exact absurd (h3 hc) (by simp [hguard.1.1])
    · exact ⟨h1, h2, h3⟩
  | userStopMeasuring =>
    simp only [step]
    split
    · exact ⟨fun hm => Bool.noConfusion hm, rfl, h3⟩
    · exact ⟨h1, h2, h3⟩
  | tick snap =>
    simp only [step]
    split
    · exact ⟨h1, h2, h3⟩
    · exact ⟨h1, h2, h3⟩

theorem wf_run (s : State) (es : List Event) (h : WF s) : WF (run s es) := by
  induction es generalizing s with
  | nil => exact h
  | cons e es ih => exact ih _ (wf_step s e h)

theorem reachable_wf (s : State) (h : Reachable s) : WF s := by
  obtain ⟨es, rfl⟩ := h
  exact wf_run init es wf_init

/-! Phase characterizations. -/

theorem phase_measuring_iff (s : State) :
    phase s = Phase.Measuring ↔ s.isMeasuring = true := by
  cases h1 : s.isMeasuring <;> cases h2 : s.isCalibrating <;>
    cases h3 : s.isCalibrated <;> simp [phase, h1, h2, h3]

theorem phase_calibrating_iff (s : State) :
    phase s = Phase.Calibrating ↔
      s.isMeasuring = false ∧ s.isCalibrating = true := by
  cases h1 : s.isMeasuring <;> cases h2 : s.isCalibrating <;>
    cases h3 : s.isCalibrated <;> simp [phase, h1, h2, h3]

theorem phase_calibrated_iff (s : State) :
    phase s = Phase.Calibrated ↔
      s.isMeasuring = false ∧ s.isCalibrating = false ∧
        s.isCalibrated = true := by
  cases h1 : s.isMeasuring <;> cases h2 : s.isCalibrating <;>
    cases h3 : s.isCalibrated <;> simp [phase, h1, h2, h3]

theorem phase_congr (s t : State)
    (hm : s.isMeasuring = t.isMeasuring)
    (hc : s.isCalibrating = t.isCalibrating)
    (hd : s.isCalibrated = t.isCalibrated) : phase s = phase t := by
  unfold phase
  rw [hm, hc, hd]

/-- A message whose status text contains the marker has a nonempty
(truthy) `message` field. -/
theorem hasMarker_truthyStr (o : Option String) (h : hasMarker o = true) :
    truthyStr o = true := by
  cases o with
  | none => exact absurd h (by simp [hasMarker])
  | some t =>
    by_cases hte : t = ""
    · subst hte; exact absurd h (by decide)
    · simp [truthyStr, hte]

/-- Processing a whole list of inbound messages in arrival order. -/
def processAll (s : State) : List InMsg → State
  | [] => s
  | m :: ms => processAll (processMessage s m) ms

/-! Claim C1. -/

/-- C1: the claim says the Channel Manager opens at most one streaming
connection over the whole session lifetime ("idempotent per mount").
The WebSocket effect (App.jsx line 100) lists `isMeasuring` as a
dependency, so starting measurement closes the mount's socket and
constructs a second `WebSocket`: on the straight-line trace
mount → socket opens → calibrate → calibration confirmed → start
measuring, two connections have been opened, contradicting the claim.
This also means `start_distance` is sent on a socket that is closed
immediately afterwards, so the code, not the spec, is at fault. -/
theorem C1_second_connection_opened :
    init.connectionsOpened = 1 ∧
    (run init traceToMeasuring).connectionsOpened = 2 ∧
    phase (run init traceToMeasuring) = Phase.Measuring := by decide

/-! Claim C2. -/

/-- A stale in-flight result message for a frame sent before stop. -/
def staleImgMsg : InMsg :=
  { success := some true, processed_image := some "stale.jpg" }

/-- C2 (counterexample): after the user stops measuring, the phase is
not `Measuring` and the processed image is cleared, yet processing a
stale successful result carrying `processed_image` sets the
processed-image display back to a non-cleared value — the `onmessage`
branch for `processed_image` (App.jsx line 63) is not guarded by
`isMeasuring`. -/
theorem C2_counterexample :
    phase sStopped ≠ Phase.Measuring ∧
    sStopped.processedImage = none ∧
    (processMessage sStopped staleImgMsg).processedImage =
      some "stale.jpg" := by decide

/-- C2 (amended): after the user stops measuring, subsequently processed
inbound messages leave the displayed distance cleared — no sequence of
inbound messages can change the distance display while the session is
not measuring; the processed-image display, however, can be re-set by a
successful message carrying `processed_image`. -/
theorem C2_distance_stays_cleared (s : State) (ms : List InMsg)
    (h : s.isMeasuring = false) :
    (processAll s ms).currentDistance = s.currentDistance := by
  induction ms generalizing s with
  | nil => rfl
  | cons m ms ih =>
    have hm : (processMessage s m).isMeasuring = false := by
      rw [processMessage_isMeasuring]; exact h
    have hd : (processMessage s m).currentDistance = s.currentDistance := by
      rw [processMessage_currentDistance, h]
      simp
    show (processAll (processMessage s m) ms).currentDistance = _
    rw [ih _ hm, hd]

/-- C2 (witness): the stopped state is not measuring, and its cleared
distance survives the stale result message. -/
theorem C2_distance_stays_cleared_witness :
    sStopped.isMeasuring = false ∧
    (processAll sStopped [staleImgMsg]).currentDistance =
      sStopped.currentDistance :=
  ⟨by decide, C2_distance_stays_cleared sStopped [staleImgMsg] (by decide)⟩

/-! Claim C3. -/

/-- `step` on a stop request while measuring, in closed form. -/
theorem step_stop_eq (s : State) (hp : s.isMeasuring = true) :
    step s Event.userStopMeasuring =
      ({ s with timerActive := false, isMeasuring := false,
                currentDistance := "0m",
                statusMessage := "Measurement stopped",
                processedImage := none, wsOpen := false,
                connectionsOpened := s.connectionsOpened + 1 },
       if s.wsOpen then [OutMsg.stopAll] else []) := by
  simp only [step, hp]
  simp

/-- C3 (counterexample): the claim says stopping while measuring always
sends `\x7bcommand: stop_all\x7d`.  But `stopMeasuringDistance` only sends
when the socket is open (App.jsx line 135), and right after
`startMeasuringDistance` the effect re-run has replaced the socket with
a still-connecting one: in the state reached by the straight-line
start-measuring trace the phase is `Measuring` and a stop request sends
nothing at all. -/
theorem C3_counterexample :
    phase sMeasuring = Phase.Measuring ∧
    (step sMeasuring Event.userStopMeasuring).2 = [] := by decide

/-- C3 (amended): whenever the user requests stop while the phase is
`Measuring`, the stop operation sends `\x7bcommand: stop_all\x7d` exactly
when the channel is open (the send is silently skipped otherwise), and
unconditionally stops the Frame Pump, clears the Measurement Sample and
the processed-image display, and moves the phase to `Calibrated` —
regardless of whether any result message had been received. -/
theorem C3_stop_clears (s : State) (hr : Reachable s)
    (hp : phase s = Phase.Measuring) :
    ((step s Event.userStopMeasuring).2 =
      if s.wsOpen then [OutMsg.stopAll] else []) ∧
    (step s Event.userStopMeasuring).1.timerActive = false ∧
    (step s Event.userStopMeasuring).1.currentDistance = "0m" ∧
    (step s Event.userStopMeasuring).1.processedImage = none ∧
    phase (step s Event.userStopMeasuring).1 = Phase.Calibrated := by
  obtain ⟨h1, h2, h3⟩ := reachable_wf s hr
  rw [phase_measuring_iff] at hp
  rw [step_stop_eq s hp]
  refine ⟨rfl, rfl, rfl, rfl, ?_⟩
  rw [phase_calibrated_iff]
  exact ⟨rfl, (h1 hp).2, (h1 hp).1⟩

/-- C3 (witness): stopping from the reachable measuring state whose
socket has (re)opened sends `stop_all` and clears everything. -/
theorem C3_stop_clears_witness :
    ((step sMeasuringOpen Event.userStopMeasuring).2 =
      if sMeasuringOpen.wsOpen then [OutMsg.stopAll] else []) ∧
    (step sMeasuringOpen Event.userStopMeasuring).1.timerActive = false ∧
    (step sMeasuringOpen Event.userStopMeasuring).1.currentDistance = "0m" ∧
    (step sMeasuringOpen Event.userStopMeasuring).1.processedImage = none ∧
    phase (step sMeasuringOpen Event.userStopMeasuring).1 =
      Phase.Calibrated :=
  C3_stop_clears sMeasuringOpen
    ⟨traceToMeasuring ++ [Event.wsOpen], rfl⟩ (by decide)

/-! Claim C4. -/

/-- C4: in every reachable state, a bare-frame send can only be emitted
by a Frame Pump tick while the phase is `Measuring` with the channel
open, and a tick on which the channel is not open or no snapshot is
available sends nothing and leaves the state unchanged (nothing is
queued). -/
theorem C4_frames_only_measuring (s : State) (hr : Reachable s) :
    (∀ (e : Event) (img : String),
        OutMsg.frame img ∈ (step s e).2 →
          phase s = Phase.Measuring ∧ s.wsOpen = true) ∧
    (∀ snap : Option String,
        s.wsOpen = false ∨ truthyStr snap = false →
          (step s (Event.tick snap)).2 = [] ∧
          (step s (Event.tick snap)).1 = s) := by
  obtain ⟨h1, h2, h3⟩ := reachable_wf s hr
  constructor
  · intro e img hmem
    cases e with
    | wsOpen => simp [step] at hmem
    | wsClose => simp [step] at hmem
    | wsError => simp [step] at hmem
    | wsMessage m => simp [step] at hmem
    | userCalibrate =>
      simp only [step] at hmem
      split at hmem <;> simp at hmem
    | userCapture snap =>
      simp only [step] at hmem
      split at hmem <;> simp at hmem
    | userStartMeasuring =>
      simp only [step] at hmem
      split at hmem <;> simp at hmem
    | userStopMeasuring =>
      simp only [step] at hmem
      split at hmem <;> (try split at hmem) <;> simp at hmem
    | tick snap =>
      simp only [step] at hmem
      split at hmem
      · next hg =>
        simp only [Bool.and_eq_true] at hg
        obtain ⟨⟨hta, hws⟩, _⟩ := hg
        refine ⟨?_, hws⟩
        rw [phase_measuring_iff, ← h2]
        exact hta
      · simp at hmem
  · intro snap hbad
    simp only [step]
    split
    · next hg =>
      exfalso
      simp only [Bool.and_eq_true] at hg
      obtain ⟨⟨_, hws⟩, hsn⟩ := hg
      cases hbad with
      | inl h => rw [h] at hws; exact Bool.noConfusion hws
      | inr h => rw [h] at hsn; exact Bool.noConfusion hsn
    · exact ⟨rfl, rfl⟩

/-- C4 (witness): in the reachable measuring state whose socket is
still connecting, a tick with a snapshot available sends nothing and
changes nothing. -/
theorem C4_frames_only_measuring_witness :
    (step sMeasuring (Event.tick (some "frame.jpg"))).2 = [] ∧
    (step sMeasuring (Event.tick (some "frame.jpg"))).1 = sMeasuring :=
  (C4_frames_only_measuring sMeasuring ⟨traceToMeasuring, rfl⟩).2
    (some "frame.jpg") (Or.inl (by decide))

/-! Claim C5. -/

/-- C5: a wire field absent from an inbound message never changes the
corresponding state field: absent `focal_length` leaves the focal
length, absent `processed_image` leaves the processed image, absent
`faces` leaves the displayed distance, and an absent `message` together
with an absent `error` leaves the status message. -/
theorem C5_absent_fields_preserved (s : State) (m : InMsg) :
    (m.focal_length = none →
      (processMessage s m).focalLength = s.focalLength) ∧
    (m.processed_image = none →
      (processMessage s m).processedImage = s.processedImage) ∧
    (m.faces = none →
      (processMessage s m).currentDistance = s.currentDistance) ∧
    (m.message = none → m.error = none →
      (processMessage s m).statusMessage = s.statusMessage) := by
  refine ⟨?_, ?_, ?_, ?_⟩
  · intro h; rw [processMessage_focalLength, h]; simp [truthyNum]
  · intro h; rw [processMessage_processedImage, h]; simp [truthyStr]
  · intro h; rw [processMessage_currentDistance, h]; simp [facesNonempty]
  · intro hm he
    rw [processMessage_statusMessage, hm, he]
    simp [truthyStr, hasMarker]

/-- The empty inbound message: every wire field absent. -/
def emptyMsg : InMsg := {}

/-- C5 (witness): the all-absent message leaves every field of the
measuring state unchanged. -/
theorem C5_absent_fields_preserved_witness :
    (processMessage sMeasuringOpen emptyMsg).focalLength =
      sMeasuringOpen.focalLength ∧
    (processMessage sMeasuringOpen emptyMsg).processedImage =
      sMeasuringOpen.processedImage ∧
    (processMessage sMeasuringOpen emptyMsg).currentDistance =
      sMeasuringOpen.currentDistance ∧
    (processMessage sMeasuringOpen emptyMsg).statusMessage =
      sMeasuringOpen.statusMessage :=
  ⟨(C5_absent_fields_preserved sMeasuringOpen emptyMsg).1 rfl,
   (C5_absent_fields_preserved sMeasuringOpen emptyMsg).2.1 rfl,
   (C5_absent_fields_preserved sMeasuringOpen emptyMsg).2.2.1 rfl,
   (C5_absent_fields_preserved sMeasuringOpen emptyMsg).2.2.2 rfl rfl⟩

/-! Claim C6. -/

/-- A calibration-complete status text without a `success` flag. -/
def noSuccessCalibMsg : InMsg :=
  { message := some "Calibration complete"
    focal_length := some (mkRat 4502 10) }

/-- C6 (counterexample): the claim quantifies over every inbound message
whose status text contains the calibration-complete marker, but the
handler only enters the calibration branch under `if (data.success)`
(App.jsx line 62): a marker message without a `success` flag, received
while calibrating, leaves the phase `Calibrating` and the focal length
unrecorded. -/
theorem C6_counterexample :
    phase sCalibrating = Phase.Calibrating ∧
    hasMarker noSuccessCalibMsg.message = true ∧
    phase (processMessage sCalibrating noSuccessCalibMsg) =
      Phase.Calibrating ∧
    (processMessage sCalibrating noSuccessCalibMsg).focalLength = 0 := by
  decide

/-- C6 (amended): for every inbound message with a truthy `success` flag
whose status text contains the calibration-complete marker
(case-insensitively) received while the phase is `Calibrating`, and
which carries no `error` field, the session transitions to `Calibrated`,
records the reported focal length when a nonzero one is reported, and
the status message becomes the message's own completion text. -/
theorem C6_calibration_complete (s : State) (m : InMsg)
    (hp : phase s = Phase.Calibrating)
    (hsu : truthySuccess m.success = true)
    (hmk : hasMarker m.message = true)
    (hne : m.error = none) :
    phase (processMessage s m) = Phase.Calibrated ∧
    (truthyNum m.focal_length = true →
      (processMessage s m).focalLength = m.focal_length.getD 0) ∧
    (processMessage s m).statusMessage = m.message.getD "" := by
  rw [phase_calibrating_iff] at hp
  refine ⟨?_, ?_, ?_⟩
  · rw [phase_calibrated_iff, processMessage_isMeasuring,
        processMessage_isCalibrating, processMessage_isCalibrated,
        hsu, hmk]
    exact ⟨hp.1, by simp, by simp⟩
  · intro hfl
    rw [processMessage_focalLength, hsu, hfl]
    simp
  · rw [processMessage_statusMessage, hne]
    have h0 : truthyStr (none : Option String) = false := rfl
    simp [h0, hasMarker_truthyStr m.message hmk]

/-- C6 (witness): the spec scenario — the service replies
`\x7bsuccess: true, message: "Calibration complete",
focal_length: 450.2\x7d` while calibrating, and the session becomes
`Calibrated` with `focalLength = 450.2` and a completion status. -/
theorem C6_calibration_complete_witness :
    phase (processMessage sCalibrating calibMsg) = Phase.Calibrated ∧
    (processMessage sCalibrating calibMsg).focalLength = mkRat 4502 10 ∧
    (processMessage sCalibrating calibMsg).statusMessage =
      "Calibration complete" := by
  have h := C6_calibration_complete sCalibrating calibMsg
    (by decide) (by decide) (by decide) rfl
  exact ⟨h.1, h.2.1 (by decide), h.2.2⟩

/-! Claim C7. -/

/-- A successful result reporting a 1.2 m detection. -/
def faceMsgPos : InMsg :=
  { success := some true, faces := some [⟨some (mkRat 6 5)⟩] }

/-- A successful result reporting a zero-distance detection. -/
def faceMsgZero : InMsg :=
  { success := some true, faces := some [⟨some 0⟩] }

/-- A detection-gap result: successful, but with an empty `faces`
array, so no distance at all is reported. -/
def emptyFacesMsg : InMsg :=
  { success := some true, faces := some [] }

/-- C7 (counterexample): the claim says a result with a missing
distance makes the display show the provisional "Calculating..."
indicator rather than a stale value.  But the faces branch requires
`data.faces.length > 0` (App.jsx line 77): after a 1.2 m reading,
processing a detection-gap result (`faces: []`, a result with no
distance) while still measuring leaves the display frozen at the stale
"6/5m" instead of "Calculating...". -/
theorem C7_counterexample :
    phase (processMessage sMeasuringOpen faceMsgPos) = Phase.Measuring ∧
    (processMessage sMeasuringOpen faceMsgPos).currentDistance =
      "6/5m" ∧
    (processMessage (processMessage sMeasuringOpen faceMsgPos)
        emptyFacesMsg).currentDistance = "6/5m" := by decide

/-- C7 (amended): while measuring, a successful result whose first
detection reports a positive distance makes the display show that
distance, and one whose first detection reports a non-positive or
missing distance makes the display show the provisional
"Calculating..." indicator; but a result with no detections at all
(`faces` empty or absent) leaves the display unchanged, so the prior
number stays frozen during detection gaps. -/
theorem C7_distance_display (s : State) (m : InMsg)
    (hp : phase s = Phase.Measuring)
    (hsu : truthySuccess m.success = true) :
    (∀ (f : Face) (fs : List Face), m.faces = some (f :: fs) →
      (distPos f.distance = true →
        (processMessage s m).currentDistance =
          renderDist (f.distance.getD 0)) ∧
      (distPos f.distance = false →
        (processMessage s m).currentDistance = "Calculating...")) ∧
    ((m.faces = some [] ∨ m.faces = none) →
      (processMessage s m).currentDistance = s.currentDistance) := by
  rw [phase_measuring_iff] at hp
  constructor
  · intro f fs hf
    have hfe : facesNonempty m.faces = true := by
      rw [hf]; simp [facesNonempty]
    have hhd : headDist m.faces = f.distance := by rw [hf]; rfl
    constructor
    · intro hd
      rw [processMessage_currentDistance, hsu, hfe, hp]
      simp [distDisplay, hhd, hd]
    · intro hd
      rw [processMessage_currentDistance, hsu, hfe, hp]
      simp [distDisplay, hhd, hd]
  · intro hgap
    have hfe : facesNonempty m.faces = false := by
      cases hgap with
      | inl h => rw [h]; simp [facesNonempty]
      | inr h => rw [h]; simp [facesNonempty]
    rw [processMessage_currentDistance, hfe]
    simp

/-- C7 (witness): while measuring, the 1.2 m result is displayed, the
zero-distance result displays "Calculating...", and the detection-gap
result leaves the display unchanged. -/
theorem C7_distance_display_witness :
    (processMessage sMeasuringOpen faceMsgPos).currentDistance =
      renderDist (mkRat 6 5) ∧
    (processMessage sMeasuringOpen faceMsgZero).currentDistance =
      "Calculating..." ∧
    (processMessage sMeasuringOpen emptyFacesMsg).currentDistance =
      sMeasuringOpen.currentDistance :=
  ⟨((C7_distance_display sMeasuringOpen faceMsgPos (by decide) rfl).1
      ⟨some (mkRat 6 5)⟩ [] rfl).1 (by decide),
   ((C7_distance_display sMeasuringOpen faceMsgZero (by decide) rfl).1
      ⟨some 0⟩ [] rfl).2 (by decide),
   (C7_distance_display sMeasuringOpen emptyFacesMsg (by decide) rfl).2
     (Or.inl rfl)⟩

/-! Claim C8. -/

/-- A message carrying both an error and a successful
calibration-complete confirmation. -/
def errorWithCalibMsg : InMsg :=
  { success := some true
    message := some "Calibration complete"
    error := some "boom" }

/-- C8 (counterexample): the claim says a message carrying an `error`
field leaves the phase unchanged, but the handler still runs the
success branches first: a message carrying both `error` and a truthy
`success` with the calibration-complete text moves the phase from
`Idle` to `Calibrated`. -/
theorem C8_counterexample :
    errorWithCalibMsg.error = some "boom" ∧
    phase init = Phase.Idle ∧
    phase (processMessage init errorWithCalibMsg) =
      Phase.Calibrated := by decide

/-- C8 (amended): for every inbound message carrying a nonempty `error`
field, the error text is surfaced in `statusMessage` prefixed with
"Error: ", and — unless the same message also carries a truthy
`success` flag together with a calibration-complete status text — the
phase is unchanged. -/
theorem C8_error_surfaced (s : State) (m : InMsg) (e : String)
    (he : m.error = some e) (hne : e ≠ "")
    (hng : ¬(truthySuccess m.success = true ∧ hasMarker m.message = true)) :
    (processMessage s m).statusMessage = "Error: " ++ e ∧
    phase (processMessage s m) = phase s := by
  have het : truthyStr m.error = true := by
    rw [he]; simp [truthyStr, hne]
  have hg : (truthySuccess m.success && hasMarker m.message) = false := by
    cases hsu : truthySuccess m.success <;>
      cases hmk : hasMarker m.message <;> simp_all
  constructor
  · rw [processMessage_statusMessage, het, he]
    simp
  · apply phase_congr
    · exact processMessage_isMeasuring s m
    · rw [processMessage_isCalibrating, hg]; simp
    · rw [processMessage_isCalibrated, hg]; simp

/-- A plain protocol-error message. -/
def plainErrorMsg : InMsg := { error := some "boom" }

/-- C8 (witness): a plain error message surfaces "Error: boom" and
leaves the calibrating phase unchanged. -/
theorem C8_error_surfaced_witness :
    (processMessage sCalibrating plainErrorMsg).statusMessage =
      "Error: boom" ∧
    phase (processMessage sCalibrating plainErrorMsg) =
      phase sCalibrating :=
  C8_error_surfaced sCalibrating plainErrorMsg "boom" rfl
    (by decide) (by decide)

/-! Claim C9. -/

/-- C9: a capture request never changes the state (the phase stays as
it is until the service confirms); it sends exactly one
`\x7bcommand: capture, image: snapshot\x7d` message when the phase is
`Calibrating` with a snapshot available and the channel open, and sends
nothing when the phase differs or the snapshot or channel is missing. -/
theorem C9_capture (s : State) (hr : Reachable s) (snap : Option String) :
    (step s (Event.userCapture snap)).1 = s ∧
    (phase s = Phase.Calibrating → truthyStr snap = true →
      s.wsOpen = true →
      (step s (Event.userCapture snap)).2 =
        [OutMsg.capture (snap.getD "")]) ∧
    (phase s ≠ Phase.Calibrating →
      (step s (Event.userCapture snap)).2 = []) ∧
    ((truthyStr snap = false ∨ s.wsOpen = false) →
      (step s (Event.userCapture snap)).2 = []) := by
  obtain ⟨h1, h2, h3⟩ := reachable_wf s hr
  refine ⟨?_, ?_, ?_, ?_⟩
  · simp only [step]; split <;> rfl
  · intro hp hsn hws
    rw [phase_calibrating_iff] at hp
    simp only [step]
    rw [hp.2, hsn, hws]
    simp
  · intro hp
    simp only [step]
    split
    · next hg =>
      exfalso
      simp only [Bool.and_eq_true] at hg
      obtain ⟨⟨hc, _⟩, _⟩ := hg
      apply hp
      rw [phase_calibrating_iff]
      refine ⟨?_, hc⟩
      cases him : s.isMeasuring with
      | false => rfl
      | true => exact absurd (h1 him).2 (by simp [hc])
    · rfl
  · intro hbad
    simp only [step]
    split
    · next hg =>
      exfalso
      simp only [Bool.and_eq_true] at hg
      obtain ⟨⟨_, hsn⟩, hws⟩ := hg
      cases hbad with
      | inl h => rw [h] at hsn; exact Bool.noConfusion hsn
      | inr h => rw [h] at hws; exact Bool.noConfusion hws
    · rfl

/-- C9 (witness): capturing in the reachable calibrating state with an
open channel and a snapshot sends exactly the capture message and
changes nothing. -/
theorem C9_capture_witness :
    (step sCalibrating (Event.userCapture (some "snap.jpg"))).1 =
      sCalibrating ∧
    (step sCalibrating (Event.userCapture (some "snap.jpg"))).2 =
      [OutMsg.capture "snap.jpg"] := by
  have h := C9_capture sCalibrating ⟨traceToCalibrating, rfl⟩
    (some "snap.jpg")
  exact ⟨h.1, h.2.1 (by decide) (by decide) (by decide)⟩

/-! Claim C10. -/

/-- C10: a message whose `success` field is absent or falsy leaves the
processed image, focal length, phase flags, displayed distance — and
every other field except the status message — unchanged, even when it
carries `processed_image`, `focal_length`, a calibration-complete text,
or `faces`. -/
theorem C10_falsy_success_frame (s : State) (m : InMsg)
    (h : truthySuccess m.success = false) :
    (processMessage s m).processedImage = s.processedImage ∧
    (processMessage s m).focalLength = s.focalLength ∧
    (processMessage s m).isCalibrating = s.isCalibrating ∧
    (processMessage s m).isCalibrated = s.isCalibrated ∧
    (processMessage s m).isMeasuring = s.isMeasuring ∧
    (processMessage s m).currentDistance = s.currentDistance ∧
    (processMessage s m).showCamera = s.showCamera ∧
    (processMessage s m).connectionStatus = s.connectionStatus ∧
    (processMessage s m).frameCount = s.frameCount ∧
    (processMessage s m).timerActive = s.timerActive ∧
    (processMessage s m).wsOpen = s.wsOpen ∧
    (processMessage s m).connectionsOpened = s.connectionsOpened := by
  refine ⟨?_, ?_, ?_, ?_, processMessage_isMeasuring s m, ?_,
    by rw [processMessage_eq], by rw [processMessage_eq],
    by rw [processMessage_eq], by rw [processMessage_eq],
    by rw [processMessage_eq], by rw [processMessage_eq]⟩
  · rw [processMessage_processedImage, h]; simp
  · rw [processMessage_focalLength, h]; simp
  · rw [processMessage_isCalibrating, h]; simp
  · rw [processMessage_isCalibrated, h]; simp
  · rw [processMessage_currentDistance, h]; simp

/-- A falsy-success message loaded with every updating field. -/
def richFalsyMsg : InMsg :=
  { success := none
    processed_image := some "p.jpg"
    focal_length := some 5
    faces := some [⟨some 2⟩]
    message := some "Calibration complete" }

/-- C10 (witness): the loaded falsy-success message changes nothing but
the status message in the measuring state. -/
theorem C10_falsy_success_frame_witness :
    (processMessage sMeasuringOpen richFalsyMsg).processedImage =
      sMeasuringOpen.processedImage ∧
    (processMessage sMeasuringOpen richFalsyMsg).focalLength =
      sMeasuringOpen.focalLength ∧
    (processMessage sMeasuringOpen richFalsyMsg).isCalibrating =
      sMeasuringOpen.isCalibrating ∧
    (processMessage sMeasuringOpen richFalsyMsg).isCalibrated =
      sMeasuringOpen.isCalibrated ∧
    (processMessage sMeasuringOpen richFalsyMsg).isMeasuring =
      sMeasuringOpen.isMeasuring ∧
    (processMessage sMeasuringOpen richFalsyMsg).currentDistance =
      sMeasuringOpen.currentDistance ∧
    (processMessage sMeasuringOpen richFalsyMsg).showCamera =
      sMeasuringOpen.showCamera ∧
    (processMessage sMeasuringOpen richFalsyMsg).connectionStatus =
      sMeasuringOpen.connectionStatus ∧
    (processMessage sMeasuringOpen richFalsyMsg).frameCount =
      sMeasuringOpen.frameCount ∧
    (processMessage sMeasuringOpen richFalsyMsg).timerActive =
      sMeasuringOpen.timerActive ∧
    (processMessage sMeasuringOpen richFalsyMsg).wsOpen =
      sMeasuringOpen.wsOpen ∧
    (processMessage sMeasuringOpen richFalsyMsg).connectionsOpened =
      sMeasuringOpen.connectionsOpened :=
  C10_falsy_success_frame sMeasuringOpen richFalsyMsg rfl

end VisionAcuity
